import Mathlib

/-!
Verification of the date/time parsing core in
`packages/grafana-data/src/datetime/parser.ts`.

The file shallowly embeds `dateTimeParse`, `parseString` and `parseOthers`.
External collaborators (the datemath engine `isValid`/`parse`, the
moment-timezone database lookup `moment.tz.zone`, and the process default
timezone consulted by `getTimeZone`) are parameters of an `Env` structure,
since their code is outside the resolver.  The moment construction
primitives (`moment()`, `moment.tz(date, name)`, `moment.utc(date)`,
`moment(date)`) are modelled freely, as distinct constructors of the
`DateTime` type, so that which construction path the resolver takes is
directly observable in the result.
-/

namespace GrafanaDateTime

/-- Non-string, non-DateTime scalar inputs accepted by the parser
(`MomentInput`): numeric epoch values, native date objects, arrays of date
components. -/
inductive OtherInput where
  | epoch (n : Int)
  | dateObject (ms : Int)
  | components (xs : List Int)
deriving DecidableEq, Repr

mutual
/-- The result type of the resolver, modelled freely: each moment
construction primitive used by `parser.ts` is a distinct constructor.
`instant n` stands for an opaque already-resolved DateTime value (e.g. one
produced upstream, or returned by the datemath engine). -/
inductive DateTime where
  | now : DateTime
  | tzConstruct : DateTimeInput → String → DateTime
  | utcConstruct : DateTimeInput → DateTime
  | localConstruct : DateTimeInput → DateTime
  | instant : Nat → DateTime

/-- `DateTimeInput`: the dispatcher's input shape — an already-resolved
DateTime (detected by `isDateTime`), a string, or another scalar. -/
inductive DateTimeInput where
  | dateTime : DateTime → DateTimeInput
  | str : String → DateTimeInput
  | other : OtherInput → DateTimeInput
end

mutual
def DateTime.beq : DateTime → DateTime → Bool
  | .now, .now => true
  | .tzConstruct v₁ z₁, .tzConstruct v₂ z₂ => DateTimeInput.beq v₁ v₂ && z₁ == z₂
  | .utcConstruct v₁, .utcConstruct v₂ => DateTimeInput.beq v₁ v₂
  | .localConstruct v₁, .localConstruct v₂ => DateTimeInput.beq v₁ v₂
  | .instant n₁, .instant n₂ => n₁ == n₂
  | _, _ => false

def DateTimeInput.beq : DateTimeInput → DateTimeInput → Bool
  | .dateTime d₁, .dateTime d₂ => DateTime.beq d₁ d₂
  | .str s₁, .str s₂ => s₁ == s₂
  | .other v₁, .other v₂ => v₁ == v₂
  | _, _ => false
end

mutual
theorem DateTime.beq_eq_true_iff : ∀ d₁ d₂ : DateTime, DateTime.beq d₁ d₂ = true ↔ d₁ = d₂
  | .now, .now => by simp [DateTime.beq]
  | .tzConstruct v₁ z₁, .tzConstruct v₂ z₂ => by
      simp [DateTime.beq, DateTimeInput.beq_agrees_iff v₁ v₂]
  | .utcConstruct v₁, .utcConstruct v₂ => by
      simp [DateTime.beq, DateTimeInput.beq_agrees_iff v₁ v₂]
  | .localConstruct v₁, .localConstruct v₂ => by
      simp [DateTime.beq, DateTimeInput.beq_agrees_iff v₁ v₂]
  | .instant n₁, .instant n₂ => by simp [DateTime.beq]
  | .now, .tzConstruct _ _ => by simp [DateTime.beq]
  | .now, .utcConstruct _ => by simp [DateTime.beq]
  | .now, .localConstruct _ => by simp [DateTime.beq]
  | .now, .instant _ => by simp [DateTime.beq]
  | .tzConstruct _ _, .now => by simp [DateTime.beq]
  | .tzConstruct _ _, .utcConstruct _ => by simp [DateTime.beq]
  | .tzConstruct _ _, .localConstruct _ => by simp [DateTime.beq]
  | .tzConstruct _ _, .instant _ => by simp [DateTime.beq]
  | .utcConstruct _, .now => by simp [DateTime.beq]
  | .utcConstruct _, .tzConstruct _ _ => by simp [DateTime.beq]
  | .utcConstruct _, .localConstruct _ => by simp [DateTime.beq]
  | .utcConstruct _, .instant _ => by simp [DateTime.beq]
  | .localConstruct _, .now => by simp [DateTime.beq]
  | .localConstruct _, .tzConstruct _ _ => by simp [DateTime.beq]
  | .localConstruct _, .utcConstruct _ => by simp [DateTime.beq]
  | .localConstruct _, .instant _ => by simp [DateTime.beq]
  | .instant _, .now => by simp [DateTime.beq]
  | .instant _, .tzConstruct _ _ => by simp [DateTime.beq]
  | .instant _, .utcConstruct _ => by simp [DateTime.beq]
  | .instant _, .localConstruct _ => by simp [DateTime.beq]

theorem DateTimeInput.beq_agrees_iff : ∀ v₁ v₂ : DateTimeInput,
    DateTimeInput.beq v₁ v₂ = true ↔ v₁ = v₂
  | .dateTime d₁, .dateTime d₂ => by
      simp [DateTimeInput.beq, DateTime.beq_eq_true_iff d₁ d₂]
  | .str _, .str _ => by simp [DateTimeInput.beq]
  | .other _, .other _ => by simp [DateTimeInput.beq]
  | .dateTime _, .str _ => by simp [DateTimeInput.beq]
  | .dateTime _, .other _ => by simp [DateTimeInput.beq]
  | .str _, .dateTime _ => by simp [DateTimeInput.beq]
  | .str _, .other _ => by simp [DateTimeInput.beq]
  | .other _, .dateTime _ => by simp [DateTimeInput.beq]
  | .other _, .str _ => by simp [DateTimeInput.beq]
end

instance : DecidableEq DateTime := fun d₁ d₂ =>
  decidable_of_iff (DateTime.beq d₁ d₂ = true) (DateTime.beq_eq_true_iff d₁ d₂)

instance : DecidableEq DateTimeInput := fun v₁ v₂ =>
  decidable_of_iff (DateTimeInput.beq v₁ v₂ = true) (DateTimeInput.beq_agrees_iff v₁ v₂)

/-- A zone record returned by the timezone database lookup
(`moment.tz.zone`): carries the canonical zone name. -/
structure Zone where
  name : String
deriving DecidableEq, Repr

/-- `DateTimeOptionsWhenParsing`: `timeZone` from the base `DateTimeOptions`
plus `roundUp`; absent fields are `none` (an absent options object behaves
like one with both fields absent). -/
structure DateTimeOptionsWhenParsing where
  timeZone : Option String := none
  roundUp : Option Bool := none
deriving DecidableEq, Repr

/-- The external collaborators of `parser.ts`: the datemath engine
(`isValid`, `parse`), the timezone database (`moment.tz.zone`), and the
process-wide default timezone read by `getTimeZone`. -/
structure Env where
  isValid : String → Bool
  dmParse : String → Option Bool → Option String → Option DateTime
  tzZone : String → Option Zone
  defaultTimeZone : String

/-- Modelled from the spec: `getTimeZone` (from `common.ts`, not part of the
resolver source) resolves the effective timezone from `options.timeZone`,
falling back to the process-wide default zone when absent. -/
def getTimeZone (env : Env) (options : DateTimeOptionsWhenParsing) : String :=
  options.timeZone.getD env.defaultTimeZone

/-- ASCII uppercase letter test. -/
def isAsciiUpper (c : Char) : Bool := 'A' ≤ c && c ≤ 'Z'

/-- ASCII lowercase letter test. -/
def isAsciiLower (c : Char) : Bool := 'a' ≤ c && c ≤ 'z'

/-- ASCII digit test. -/
def isAsciiDigit (c : Char) : Bool := '0' ≤ c && c ≤ '9'

/-- A character that belongs to a word for lodash's word splitting
(ASCII alphanumeric). -/
def isWordChar (c : Char) : Bool := isAsciiUpper c || isAsciiLower c || isAsciiDigit c

/-- ASCII lowercasing of one character. -/
def toLowerChar (c : Char) : Char :=
  if isAsciiUpper c then Char.ofNat (c.toNat + 32) else c

/-- Word boundary inside a run of word characters, following lodash's
`words`: a boundary falls between a lowercase letter and an uppercase one,
between a digit and a non-digit (either order), and between two uppercase
letters when the second starts a capitalized word (is followed by a
lowercase letter). -/
def lodashBoundary (a b : Char) (rest : List Char) : Bool :=
  (isAsciiLower a && isAsciiUpper b) ||
  (isAsciiDigit a && !isAsciiDigit b) ||
  (!isAsciiDigit a && isAsciiDigit b) ||
  (isAsciiUpper a && isAsciiUpper b &&
    (match rest with
     | c :: _ => isAsciiLower c
     | [] => false))

/-- lodash's `words` on ASCII input: non-alphanumeric characters separate
words, and camelCase runs are split at `lodashBoundary`. -/
def camelWords : List Char → List (List Char)
  | [] => []
  | a :: rest =>
    let tail := camelWords rest
    if !isWordChar a then tail
    else
      match rest with
      | [] => [[a]]
      | b :: rest2 =>
        if !isWordChar b || lodashBoundary a b rest2 then [a] :: tail
        else
          match tail with
          | [] => [[a]]
          | w :: ws => (a :: w) :: ws

/-- lodash's `lowerCase` (the function imported by `parser.ts`): splits the
string into words, lowercases them, and joins them with single spaces —
e.g. it maps "--Foo-Bar--" to "foo bar".  Modelled here for ASCII input
(timezone identifiers are ASCII); ordinal contractions such as "1st" are
not special-cased. -/
def lowerCase (s : String) : String :=
  String.intercalate " " ((camelWords s.data).map (fun w => String.mk (w.map toLowerChar)))

/-- The test `value.indexOf('now') !== -1` from `parseString`: the string
contains "now" as a (case-sensitive) substring. -/
def containsNow (s : String) : Bool :=
  decide ("now".data <:+: s.data)

/-- The `switch (lowerCase(timeZone))` fallback at the end of
`parseOthers`: case "utc" builds the value with `moment.utc(date)`,
default with `moment(date)`. -/
def fallbackSwitch (value : DateTimeInput) (timeZone : String) : DateTime :=
  if lowerCase timeZone = "utc" then .utcConstruct value
  else .localConstruct value

/-- `parseOthers` from `parser.ts`: resolve the effective timezone, look
it up in the timezone database; when a zone with a truthy (non-empty) name
is found, build with `moment.tz(date, zone.name)`; otherwise fall through
to the `lowerCase` switch. -/
def parseOthers (env : Env) (value : DateTimeInput)
    (options : DateTimeOptionsWhenParsing) : DateTime :=
  let timeZone := getTimeZone env options
  match env.tzZone timeZone with
  | some zone =>
    if zone.name ≠ "" then .tzConstruct value zone.name
    else fallbackSwitch value timeZone
  | none => fallbackSwitch value timeZone

/-- The body of the `indexOf('now')` branch of `parseString`: if
`isValid` rejects the string, return `moment()`; otherwise evaluate
`parse(value, options?.roundUp, options?.timeZone)` and return the result,
or `moment()` when it is null (`parsed || moment()`). -/
def relativeResolve (env : Env) (value : String)
    (options : DateTimeOptionsWhenParsing) : DateTime :=
  if env.isValid value = false then .now
  else (env.dmParse value options.roundUp options.timeZone).getD .now

/-- `parseString` from `parser.ts`: strings containing "now" go to the
datemath engine (with silent fallback to `moment()`), all others to
`parseOthers`. -/
def parseString (env : Env) (value : String)
    (options : DateTimeOptionsWhenParsing) : DateTime :=
  if containsNow value then relativeResolve env value options
  else parseOthers env (.str value) options

/-- `dateTimeParse` from `parser.ts`: DateTime values pass through
unchanged, strings go to `parseString`, everything else to `parseOthers`. -/
def dateTimeParse (env : Env) (value : DateTimeInput)
    (options : DateTimeOptionsWhenParsing) : DateTime :=
  match value with
  | .dateTime d => d
  | .str s => parseString env s options
  | .other v => parseOthers env (.other v) options

/-- A sample collaborator environment for concrete evaluations: the
engine accepts exactly the expression "now-6h", and the timezone database
contains exactly "America/New_York". -/
def envSample : Env where
  isValid := fun s => s == "now-6h"
  dmParse := fun s _ _ => if s == "now-6h" then some (.instant 100) else none
  tzZone := fun n => if n == "America/New_York" then some ⟨"America/New_York"⟩ else none
  defaultTimeZone := "browser"

/-- An environment whose timezone database lookup always fails and whose
engine rejects every expression. -/
def envNoZones : Env where
  isValid := fun _ => false
  dmParse := fun _ _ _ => none
  tzZone := fun _ => none
  defaultTimeZone := "browser"

/-- An environment whose engine validates every string but whose
evaluation always returns null. -/
def envNullParse : Env where
  isValid := fun _ => true
  dmParse := fun _ _ _ => none
  tzZone := fun _ => none
  defaultTimeZone := "browser"

/-- The shape of every `relativeResolve` result: either the `moment()`
fallback, or a non-null result of the engine's evaluation. -/
theorem relativeResolve_shape (env : Env) (s : String)
    (options : DateTimeOptionsWhenParsing) :
    relativeResolve env s options = .now ∨
    env.dmParse s options.roundUp options.timeZone =
      some (relativeResolve env s options) := by
  unfold relativeResolve
  split
  · exact Or.inl rfl
  · cases hp : env.dmParse s options.roundUp options.timeZone with
    | none => simp [hp]
    | some d => simp [hp]

/-- The shape of every `parseOthers` result: a zone-qualified
construction, a UTC construction, or a local construction of the input
value. -/
theorem parseOthers_shape (env : Env) (value : DateTimeInput)
    (options : DateTimeOptionsWhenParsing) :
    (∃ zoneName, parseOthers env value options = .tzConstruct value zoneName) ∨
    parseOthers env value options = .utcConstruct value ∨
    parseOthers env value options = .localConstruct value := by
  simp only [parseOthers, fallbackSwitch]
  split
  · split
    · exact Or.inl ⟨_, rfl⟩
    · split
      · exact Or.inr (Or.inl rfl)
      · exact Or.inr (Or.inr rfl)
  · split
    · exact Or.inr (Or.inl rfl)
    · exact Or.inr (Or.inr rfl)

/-- C1: `dateTimeParse` routes a string to the relative-expression path
(the datemath-engine branch, embodied by `relativeResolve`) exactly when
the string contains the literal substring "now"; a string without "now"
is resolved by `parseOthers`, the same function that resolves non-string
scalars. -/
theorem string_routing_by_now_substring (env : Env) (s : String)
    (options : DateTimeOptionsWhenParsing) :
    ("now".data <:+: s.data →
      dateTimeParse env (.str s) options = relativeResolve env s options) ∧
    (¬ ("now".data <:+: s.data) →
      dateTimeParse env (.str s) options = parseOthers env (.str s) options) ∧
    (∀ v : OtherInput,
      dateTimeParse env (.other v) options = parseOthers env (.other v) options) := by
  refine ⟨fun h => ?_, fun h => ?_, fun v => rfl⟩
  · simp [dateTimeParse, parseString, containsNow, h]
  · simp [dateTimeParse, parseString, containsNow, h]

theorem string_routing_by_now_substring_witness :
    dateTimeParse envSample (.str "now-6h") {} = relativeResolve envSample "now-6h" {} ∧
    dateTimeParse envSample (.str "2024-05-01") {} =
      parseOthers envSample (.str "2024-05-01") {} :=
  ⟨(string_routing_by_now_substring envSample "now-6h" {}).1 (by decide),
   (string_routing_by_now_substring envSample "2024-05-01" {}).2.1 (by decide)⟩

/-- C2: a string containing "now" that the engine's validity check
rejects resolves to `moment()` — the current wall-clock instant — rather
than an error. -/
theorem invalid_relative_falls_back_to_now (env : Env) (s : String)
    (options : DateTimeOptionsWhenParsing)
    (hnow : containsNow s = true) (hinv : env.isValid s = false) :
    dateTimeParse env (.str s) options = .now := by
  simp [dateTimeParse, parseString, hnow, relativeResolve, hinv]

theorem invalid_relative_falls_back_to_now_witness :
    dateTimeParse envNoZones (.str "nownownow") {} = .now :=
  invalid_relative_falls_back_to_now envNoZones "nownownow" {} (by decide) (by decide)

/-- C5: a string containing "now" that passes the validity check but for
which the engine's evaluation returns null also resolves to `moment()`
rather than propagating the null. -/
theorem null_parse_falls_back_to_now (env : Env) (s : String)
    (options : DateTimeOptionsWhenParsing)
    (hnow : containsNow s = true) (hval : env.isValid s = true)
    (hnull : env.dmParse s options.roundUp options.timeZone = none) :
    dateTimeParse env (.str s) options = .now := by
  simp [dateTimeParse, parseString, hnow, relativeResolve, hval, hnull]

theorem null_parse_falls_back_to_now_witness :
    dateTimeParse envNullParse (.str "now-3x") {} = .now :=
  null_parse_falls_back_to_now envNullParse "now-3x" {} (by decide) (by decide) (by decide)

/-- C4: an input that is already a DateTime is returned unchanged, for
all options. -/
theorem instant_passthrough (env : Env) (d : DateTime)
    (options : DateTimeOptionsWhenParsing) :
    dateTimeParse env (.dateTime d) options = d := rfl

/-- C3: on the generic path the effective timezone is first looked up in
the timezone database; a successful lookup with a non-empty canonical
name produces a zone-qualified construction in that zone, and only a
failed lookup reaches the literal-match `fallbackSwitch`. -/
theorem generic_two_tier_lookup (env : Env) (value : DateTimeInput)
    (options : DateTimeOptionsWhenParsing) :
    (∀ z : Zone, env.tzZone (getTimeZone env options) = some z → z.name ≠ "" →
      parseOthers env value options = .tzConstruct value z.name) ∧
    (env.tzZone (getTimeZone env options) = none →
      parseOthers env value options = fallbackSwitch value (getTimeZone env options)) := by
  constructor
  · intro z hz hn
    simp [parseOthers, hz, hn]
  · intro hz
    simp [parseOthers, hz]

theorem generic_two_tier_lookup_witness :
    parseOthers envSample (.other (.epoch 0)) { timeZone := some "America/New_York" } =
      .tzConstruct (.other (.epoch 0)) "America/New_York" ∧
    parseOthers envNoZones (.other (.epoch 1)) { timeZone := some "Pacific/Nowhere" } =
      fallbackSwitch (.other (.epoch 1)) "Pacific/Nowhere" :=
  ⟨(generic_two_tier_lookup envSample (.other (.epoch 0))
      { timeZone := some "America/New_York" }).1 ⟨"America/New_York"⟩ (by decide) (by decide),
   (generic_two_tier_lookup envNoZones (.other (.epoch 1))
      { timeZone := some "Pacific/Nowhere" }).2 (by decide)⟩

/-- C6 counterexample: with a timezone database that does not contain the
requested zone, the mixed-case request "uTc" — equal to "utc" under
case-insensitive comparison — resolves on the local path, not the UTC
path, because lodash's `lowerCase` splits "uTc" into the words "u tc". -/
theorem mixed_case_utc_not_utc_path :
    String.mk ("uTc".data.map toLowerChar) = "utc" ∧
    envNoZones.tzZone (getTimeZone envNoZones { timeZone := some "uTc" }) = none ∧
    lowerCase "uTc" = "u tc" ∧
    dateTimeParse envNoZones (.other (.epoch 0)) { timeZone := some "uTc" } =
      .localConstruct (.other (.epoch 0)) ∧
    DateTime.localConstruct (.other (.epoch 0)) ≠
      DateTime.utcConstruct (.other (.epoch 0)) := by
  refine ⟨by decide, by decide, by decide, by decide, by decide⟩

/-- C6 amended: when the database lookup fails, the value is interpreted
as UTC exactly when the requested zone string's lodash `lowerCase`
normalization equals "utc" — which holds for the single-word casings
"utc", "UTC" and "Utc", but not for intra-word mixed casings such as
"uTc", which fall through to local interpretation. -/
theorem utc_literal_fallback (env : Env) (value : DateTimeInput)
    (options : DateTimeOptionsWhenParsing)
    (hz : env.tzZone (getTimeZone env options) = none)
    (hu : lowerCase (getTimeZone env options) = "utc") :
    parseOthers env value options = .utcConstruct value := by
  simp [parseOthers, hz, fallbackSwitch, hu]

theorem utc_literal_fallback_witness :
    lowerCase "utc" = "utc" ∧ lowerCase "UTC" = "utc" ∧ lowerCase "Utc" = "utc" ∧
    parseOthers envNoZones (.other (.epoch 2)) { timeZone := some "UTC" } =
      .utcConstruct (.other (.epoch 2)) :=
  ⟨by decide, by decide, by decide,
   utc_literal_fallback envNoZones (.other (.epoch 2)) { timeZone := some "UTC" }
     (by decide) (by decide)⟩

/-- C7: when the database lookup fails and the requested zone string does
not normalize to "utc", the value is interpreted in the ambient local
zone — not as UTC, and without an error. -/
theorem unknown_zone_falls_back_to_local (env : Env) (value : DateTimeInput)
    (options : DateTimeOptionsWhenParsing)
    (hz : env.tzZone (getTimeZone env options) = none)
    (hu : lowerCase (getTimeZone env options) ≠ "utc") :
    parseOthers env value options = .localConstruct value := by
  simp [parseOthers, hz, fallbackSwitch, hu]

theorem unknown_zone_falls_back_to_local_witness :
    lowerCase "Not/AZone" = "not a zone" ∧
    parseOthers envNoZones (.other (.epoch 3)) { timeZone := some "Not/AZone" } =
      .localConstruct (.other (.epoch 3)) :=
  ⟨by decide,
   unknown_zone_falls_back_to_local envNoZones (.other (.epoch 3))
     { timeZone := some "Not/AZone" } (by decide) (by decide)⟩

/-- C8: `dateTimeParse` is total over all declared input shapes — every
call returns a value produced by one of the explicit branches: the
passthrough of a DateTime input, the `moment()` fallback, a non-null
engine evaluation of a string, or one of the three generic
constructions. -/
theorem dateTimeParse_total (env : Env) (value : DateTimeInput)
    (options : DateTimeOptionsWhenParsing) :
    value = .dateTime (dateTimeParse env value options) ∨
    dateTimeParse env value options = .now ∨
    (∃ s, value = .str s ∧ env.dmParse s options.roundUp options.timeZone =
      some (dateTimeParse env value options)) ∨
    (∃ zoneName, dateTimeParse env value options = .tzConstruct value zoneName) ∨
    dateTimeParse env value options = .utcConstruct value ∨
    dateTimeParse env value options = .localConstruct value := by
  cases value with
  | dateTime d => exact Or.inl rfl
  | str s =>
    by_cases hnow : containsNow s = true
    · have hd : dateTimeParse env (.str s) options = relativeResolve env s options := by
        simp [dateTimeParse, parseString, hnow]
      rw [hd]
      rcases relativeResolve_shape env s options with h | h
      · exact Or.inr (Or.inl h)
      · exact Or.inr (Or.inr (Or.inl ⟨s, rfl, h⟩))
    · have hd : dateTimeParse env (.str s) options = parseOthers env (.str s) options := by
        simp [dateTimeParse, parseString, hnow]
      rw [hd]
      rcases parseOthers_shape env (.str s) options with ⟨z, hz⟩ | h | h
      · exact Or.inr (Or.inr (Or.inr (Or.inl ⟨z, hz⟩)))
      · exact Or.inr (Or.inr (Or.inr (Or.inr (Or.inl h))))
      · exact Or.inr (Or.inr (Or.inr (Or.inr (Or.inr h))))
  | other v =>
    rcases parseOthers_shape env (.other v) options with ⟨z, hz⟩ | h | h
    · exact Or.inr (Or.inr (Or.inr (Or.inl ⟨z, hz⟩)))
    · exact Or.inr (Or.inr (Or.inr (Or.inr (Or.inl h))))
    · exact Or.inr (Or.inr (Or.inr (Or.inr (Or.inr h))))

/-- C9: `roundUp` only affects relative-expression resolution — two
calls differing only in `roundUp` agree on every DateTime input, every
string without the "now" substring, and every non-string scalar. -/
theorem roundUp_irrelevant_outside_relative (env : Env) (tz : Option String)
    (r₁ r₂ : Option Bool) :
    (∀ d : DateTime,
      dateTimeParse env (.dateTime d) ⟨tz, r₁⟩ = dateTimeParse env (.dateTime d) ⟨tz, r₂⟩) ∧
    (∀ s : String, containsNow s = false →
      dateTimeParse env (.str s) ⟨tz, r₁⟩ = dateTimeParse env (.str s) ⟨tz, r₂⟩) ∧
    (∀ v : OtherInput,
      dateTimeParse env (.other v) ⟨tz, r₁⟩ = dateTimeParse env (.other v) ⟨tz, r₂⟩) := by
  refine ⟨fun d => rfl, fun s hs => ?_, fun v => rfl⟩
  simp [dateTimeParse, parseString, hs, parseOthers, getTimeZone]

theorem roundUp_irrelevant_outside_relative_witness :
    dateTimeParse envSample (.str "2024-05-02")
        ⟨some "America/New_York", some true⟩ =
      dateTimeParse envSample (.str "2024-05-02")
        ⟨some "America/New_York", some false⟩ :=
  (roundUp_irrelevant_outside_relative envSample (some "America/New_York")
    (some true) (some false)).2.1 "2024-05-02" (by decide)

/-- C10: the "now" classification is case-sensitive — any string without
the exact lowercase substring "now", including the casings "NOW", "Now",
"nOw" and "noW", is resolved by the generic `parseOthers`, never routed
to the relative-expression engine. -/
theorem now_substring_case_sensitive (env : Env)
    (options : DateTimeOptionsWhenParsing) :
    (∀ s : String, ¬ ("now".data <:+: s.data) →
      dateTimeParse env (.str s) options = parseOthers env (.str s) options) ∧
    dateTimeParse env (.str "NOW") options = parseOthers env (.str "NOW") options ∧
    dateTimeParse env (.str "Now") options = parseOthers env (.str "Now") options ∧
    dateTimeParse env (.str "nOw") options = parseOthers env (.str "nOw") options ∧
    dateTimeParse env (.str "noW") options = parseOthers env (.str "noW") options := by
  have gen : ∀ s : String, ¬ ("now".data <:+: s.data) →
      dateTimeParse env (.str s) options = parseOthers env (.str s) options := by
    intro s h
    simp [dateTimeParse, parseString, containsNow, h]
  exact ⟨gen, gen "NOW" (by decide), gen "Now" (by decide),
    gen "nOw" (by decide), gen "noW" (by decide)⟩

theorem now_substring_case_sensitive_witness :
    dateTimeParse envSample (.str "NOW-6h") {} = parseOthers envSample (.str "NOW-6h") {} :=
  (now_substring_case_sensitive envSample {}).1 "NOW-6h" (by decide)

end GrafanaDateTime
